import Mathlib

/-!
Verification of the onboarding step-sequencer of a mobile wallet app.

The development shallowly embeds the sequencer module: the user-state
snapshot (`OnboardingProps`), the step decision table (`_getStepInfo`,
returning the trace of navigator and dispatch calls its `next()` performs,
which is legitimate because the branches never inspect any value returned
by the navigator), the step-counting simulator (`getOnboardingStepValues`,
a while loop embedded with fuel), and the real navigation driver
(`goToNextOnboardingScreen`, realizing the trace with the real effect of
`finishOnboarding`).
-/

set_option maxHeartbeats 2000000

namespace Onboarding

/-- Screen identifiers of the navigator's `Screens` enum that the
onboarding step sequencer references (the remaining screens of the app
play the same role as `Welcome`, `TabHome` and `ChooseYourAdventure`
here: they have no case in the decision table). -/
inductive Screens where
  | Welcome
  | PincodeSet
  | EnableBiometry
  | ImportSelect
  | SignInWithEmail
  | ImportWallet
  | LinkPhoneNumber
  | VerificationStartScreen
  | ProtectWallet
  | TabHome
  | ChooseYourAdventure
deriving DecidableEq, Repr, Fintype

/-- Printable name of a screen, used in the fatal error message of the
decision table. -/
def Screens.name : Screens → String
  | .Welcome => "Welcome"
  | .PincodeSet => "PincodeSet"
  | .EnableBiometry => "EnableBiometry"
  | .ImportSelect => "ImportSelect"
  | .SignInWithEmail => "SignInWithEmail"
  | .ImportWallet => "ImportWallet"
  | .LinkPhoneNumber => "LinkPhoneNumber"
  | .VerificationStartScreen => "VerificationStartScreen"
  | .ProtectWallet => "ProtectWallet"
  | .TabHome => "TabHome"
  | .ChooseYourAdventure => "ChooseYourAdventure"

/-- The biometry kinds of the external `react-native-keychain` library's
`BIOMETRY_TYPE` enum; the sequencer only ever compares a value of this
type against `null` (here: `Option.isSome`). -/
inductive BIOMETRY_TYPE where
  | TOUCH_ID
  | FACE_ID
  | FINGERPRINT
  | FACE
  | IRIS
  | OPTIC_ID
deriving DecidableEq, Repr, Fintype

/-- The five onboarding feature toggles the sequencer consults
(per the module's reads of `ONBOARDING_FEATURES_ENABLED`). -/
inductive ToggleableOnboardingFeatures where
  | CloudBackup
  | CloudBackupSetupInOnboarding
  | PhoneVerification
  | ProtectWallet
  | EnableBiometry
deriving DecidableEq, Repr, Fintype

/-- The `ONBOARDING_FEATURES_ENABLED` configuration record: one boolean
per toggleable feature. Its concrete values live outside this module, so
it is kept abstract (theorems quantify over it). -/
structure FeaturesEnabledConfig where
  cloudBackup : Bool
  cloudBackupSetupInOnboarding : Bool
  phoneVerification : Bool
  protectWallet : Bool
  enableBiometry : Bool
deriving DecidableEq, Repr

/-- Indexing `ONBOARDING_FEATURES_ENABLED[feature]`. -/
def FeaturesEnabledConfig.get (cfg : FeaturesEnabledConfig) :
    ToggleableOnboardingFeatures → Bool
  | .CloudBackup => cfg.cloudBackup
  | .CloudBackupSetupInOnboarding => cfg.cloudBackupSetupInOnboarding
  | .PhoneVerification => cfg.phoneVerification
  | .ProtectWallet => cfg.protectWallet
  | .EnableBiometry => cfg.enableBiometry

/-- JavaScript truthiness of a `boolean | undefined` value, as used by
the source's `if (choseToRestoreAccount)`. -/
def truthy : Option Bool → Bool
  | some b => b
  | none => false

/-- The `OnboardingProps` user-state snapshot. -/
structure OnboardingProps where
  recoveringFromStoreWipe : Bool
  choseToRestoreAccount : Option Bool
  supportedBiometryType : Option BIOMETRY_TYPE
  skipVerification : Bool
  numberAlreadyVerifiedCentrally : Bool
  showCloudAccountBackupRestore : Bool
  showCloudAccountBackupSetup : Bool
  skipProtectWallet : Bool
deriving DecidableEq, Repr

/-- `END_OF_ONBOARDING_SCREENS = [Screens.TabHome, Screens.ChooseYourAdventure]`. -/
def END_OF_ONBOARDING_SCREENS : List Screens := [.TabHome, .ChooseYourAdventure]

/-- Helper function to determine where onboarding starts
(`firstOnboardingScreen`); reads the `CloudBackup` entry of the
`ONBOARDING_FEATURES_ENABLED` config. -/
def firstOnboardingScreen (cfg : FeaturesEnabledConfig)
    (recoveringFromStoreWipe : Bool) : Screens :=
  if recoveringFromStoreWipe then
    if cfg.get .CloudBackup then .ImportSelect else .ImportWallet
  else
    .PincodeSet

/-- The result type of `onboardingPropsSelector`'s combiner: it derives
the snapshot from the four upstream selector values and the feature
config. -/
def onboardingPropsSelector (cfg : FeaturesEnabledConfig)
    (recoveringFromStoreWipe : Bool) (choseToRestoreAccount : Option Bool)
    (supportedBiometryType : Option BIOMETRY_TYPE)
    (numberAlreadyVerifiedCentrally : Bool) : OnboardingProps :=
  { recoveringFromStoreWipe := recoveringFromStoreWipe
    choseToRestoreAccount := choseToRestoreAccount
    supportedBiometryType :=
      if cfg.get .EnableBiometry then supportedBiometryType else none
    skipVerification := !(cfg.get .PhoneVerification)
    numberAlreadyVerifiedCentrally := numberAlreadyVerifiedCentrally
    showCloudAccountBackupRestore := cfg.get .CloudBackup
    showCloudAccountBackupSetup :=
      cfg.get .CloudBackup && cfg.get .CloudBackupSetupInOnboarding
    skipProtectWallet := !(cfg.get .ProtectWallet) }

/-- The redux actions the sequencer dispatches. -/
inductive OnboardingAction where
  | initializeAccount
  | onboardingCompleted
  | updateLastOnboardingScreen (screen : Screens)
  | updateStatsigAndNavigate (screen : Screens)
deriving DecidableEq, Repr

/-- The `keylessBackupFlow` route parameter values. -/
inductive KeylessBackupFlow where
  | Setup
  | Restore
deriving DecidableEq, Repr

/-- The `origin` route parameter values. -/
inductive KeylessBackupOrigin where
  | Onboarding
  | Settings
deriving DecidableEq, Repr

/-- The route params the sequencer passes (only the `SignInWithEmail`
navigation carries params). -/
structure SignInWithEmailParams where
  keylessBackupFlow : KeylessBackupFlow
  origin : KeylessBackupOrigin
deriving DecidableEq, Repr

/-- One call that a transition's `next()` makes on the injected
`navigator` functions or on `dispatch`, in source order. -/
inductive NavCall where
  | navigate (screen : Screens) (params : Option SignInWithEmailParams)
  | popToScreen (screen : Screens)
  | finishOnboarding (screen : Screens)
  | navigateClearingStack (screen : Screens) (params : Option SignInWithEmailParams)
  | dispatch (action : OnboardingAction)
deriving DecidableEq, Repr

/-- `wrapNavigate`: navigate, then dispatch
`updateLastOnboardingScreen(screen)`. -/
def wrapNavigate (screen : Screens) (params : Option SignInWithEmailParams) :
    List NavCall :=
  [.navigate screen params, .dispatch (.updateLastOnboardingScreen screen)]

/-- `navigateImportOrImportSelect`: `ImportSelect` when the cloud restore
is shown, `ImportWallet` otherwise. -/
def navigateImportOrImportSelect (props : OnboardingProps) : List NavCall :=
  if props.showCloudAccountBackupRestore then
    wrapNavigate .ImportSelect none
  else
    wrapNavigate .ImportWallet none

/-- The step decision table `_getStepInfo`, embedded as the trace of
navigator/dispatch calls that the returned `next()` performs. The
`default` case of the source's switch throws; here it is an `Except.error`
carrying the same message. -/
def _getStepInfo (firstScreenInStep : Screens) (props : OnboardingProps) :
    Except String (List NavCall) :=
  match firstScreenInStep with
  | .PincodeSet =>
    .ok
      (if props.supportedBiometryType.isSome then
        wrapNavigate .EnableBiometry none
      else if truthy props.choseToRestoreAccount then
        .popToScreen .Welcome :: navigateImportOrImportSelect props
      else if props.showCloudAccountBackupSetup then
        .dispatch .initializeAccount ::
          wrapNavigate .SignInWithEmail
            (some { keylessBackupFlow := .Setup, origin := .Onboarding })
      else
        .dispatch .initializeAccount ::
          (if props.skipProtectWallet then
            [.finishOnboarding .ChooseYourAdventure]
          else
            wrapNavigate .ProtectWallet none))
  | .EnableBiometry =>
    .ok
      (if truthy props.choseToRestoreAccount then
        navigateImportOrImportSelect props
      else if props.showCloudAccountBackupSetup then
        .dispatch .initializeAccount ::
          wrapNavigate .SignInWithEmail
            (some { keylessBackupFlow := .Setup, origin := .Onboarding })
      else
        .dispatch .initializeAccount ::
          (if props.skipProtectWallet then
            [.finishOnboarding .ChooseYourAdventure]
          else
            wrapNavigate .ProtectWallet none))
  | .ImportSelect =>
    .ok
      (if props.skipVerification || props.numberAlreadyVerifiedCentrally then
        [.finishOnboarding .ChooseYourAdventure]
      else
        wrapNavigate .LinkPhoneNumber none)
  | .SignInWithEmail =>
    .ok
      (if props.skipVerification || props.numberAlreadyVerifiedCentrally then
        [.finishOnboarding .ChooseYourAdventure]
      else
        wrapNavigate .VerificationStartScreen none)
  | .ImportWallet =>
    .ok
      (if props.skipVerification || props.numberAlreadyVerifiedCentrally then
        [.finishOnboarding .ChooseYourAdventure]
      else
        wrapNavigate .VerificationStartScreen none)
  | .LinkPhoneNumber => .ok [.finishOnboarding .ChooseYourAdventure]
  | .VerificationStartScreen => .ok [.finishOnboarding .ChooseYourAdventure]
  | .ProtectWallet =>
    .ok
      (if props.skipVerification then
        [.finishOnboarding .ChooseYourAdventure]
      else
        wrapNavigate .VerificationStartScreen none)
  | _ =>
    .error ("No step info found for " ++ firstScreenInStep.name ++
      ". this step needs to be handled in _getStepInfo")

/-- The mutable locals of `getOnboardingStepValues`'s simulation, made an
explicit state record: `stepCounter`, `totalCounter`, `reachedStep` and
the `currentScreen` pointer. -/
structure SimState where
  stepCounter : Nat
  totalCounter : Nat
  reachedStep : Bool
  currentScreen : Screens
deriving DecidableEq, Repr

/-- The simulation's `nextStepAndCount` dummy navigation function: counts
the hop unless the destination is an end-of-onboarding screen, marks the
target step reached when the current screen is the target, and moves the
current-screen pointer. -/
def nextStepAndCount (target : Screens) (st : SimState)
    (nextScreen : Screens) : SimState :=
  if END_OF_ONBOARDING_SCREENS.contains nextScreen then
    { st with currentScreen := nextScreen }
  else
    let reached := st.reachedStep || (st.currentScreen == target)
    { stepCounter := if reached then st.stepCounter else st.stepCounter + 1
      totalCounter := st.totalCounter + 1
      reachedStep := reached
      currentScreen := nextScreen }

/-- Interpretation of one decision-table call under the simulated
navigator of `getOnboardingStepValues`: `navigate` and
`navigateClearingStack` are `nextStepAndCount`, `popToScreen` and
`dispatch` are no-ops, `finishOnboarding` just moves the pointer. -/
def simApplyCall (target : Screens) (st : SimState) : NavCall → SimState
  | .navigate screen _ => nextStepAndCount target st screen
  | .navigateClearingStack screen _ => nextStepAndCount target st screen
  | .popToScreen _ => st
  | .finishOnboarding screen => { st with currentScreen := screen }
  | .dispatch _ => st

/-- The simulation's `while` loop, embedded with fuel: run decision-table
transitions until the current screen is an end-of-onboarding screen.
`none` means the fuel ran out or the decision table had no case for the
current screen. -/
def simLoop (target : Screens) (props : OnboardingProps) :
    Nat → SimState → Option SimState
  | 0, st =>
    if END_OF_ONBOARDING_SCREENS.contains st.currentScreen then some st
    else none
  | fuel + 1, st =>
    if END_OF_ONBOARDING_SCREENS.contains st.currentScreen then some st
    else
      match _getStepInfo st.currentScreen props with
      | .error _ => none
      | .ok calls => simLoop target props fuel (calls.foldl (simApplyCall target) st)

/-- The `{step, totalSteps}` result record of `getOnboardingStepValues`. -/
structure OnboardingStepValues where
  step : Nat
  totalSteps : Nat
deriving DecidableEq, Repr

/-- `getOnboardingStepValues`: start at `firstOnboardingScreen`, counters
at 1, and simulate until an end-of-onboarding screen. The source loop is
unbounded; fuel 6 is enough, which the termination theorem proves (the
longest chain has 4 transitions). -/
def getOnboardingStepValues (cfg : FeaturesEnabledConfig) (screen : Screens)
    (props : OnboardingProps) : Option OnboardingStepValues :=
  match simLoop screen props 6
      { stepCounter := 1
        totalCounter := 1
        reachedStep := false
        currentScreen := firstOnboardingScreen cfg props.recoveringFromStoreWipe } with
  | some st => some { step := st.stepCounter, totalSteps := st.totalCounter }
  | none => none

/-- Effect of one decision-table call on the current-screen pointer alone
(the projection of `simApplyCall` to `currentScreen`). -/
def applyCallToScreen (cur : Screens) : NavCall → Screens
  | .navigate screen _ => screen
  | .navigateClearingStack screen _ => screen
  | .finishOnboarding screen => screen
  | .popToScreen _ => cur
  | .dispatch _ => cur

/-- Where one application of the decision table moves the current screen. -/
def nextScreenAfter (props : OnboardingProps) (s : Screens) :
    Except String Screens :=
  (_getStepInfo s props).map (fun calls => calls.foldl applyCallToScreen s)

/-- `n` applications of the decision table starting from `s`, stopping at
end-of-onboarding screens (and staying put on an unhandled screen). -/
def runDecisionTableN (props : OnboardingProps) : Nat → Screens → Screens
  | 0, s => s
  | n + 1, s =>
    if END_OF_ONBOARDING_SCREENS.contains s then s
    else
      match nextScreenAfter props s with
      | .error _ => s
      | .ok t => runDecisionTableN props n t

/-- The screens visited by the simulation (up to `n` transitions),
including the start and the final screen. -/
def onboardingPath (props : OnboardingProps) : Nat → Screens → List Screens
  | 0, s => [s]
  | n + 1, s =>
    if END_OF_ONBOARDING_SCREENS.contains s then [s]
    else
      match nextScreenAfter props s with
      | .error _ => [s]
      | .ok t => s :: onboardingPath props n t

/-- Events observable on the real navigator and dispatch sink. -/
inductive DriverEvent where
  | navigate (screen : Screens) (params : Option SignInWithEmailParams)
  | popToScreen (screen : Screens)
  | navigateClearingStack (screen : Screens) (params : Option SignInWithEmailParams)
  | dispatch (action : OnboardingAction)
deriving DecidableEq, Repr

/-- Realization of one decision-table call by `goToNextOnboardingScreen`'s
real navigator: `finishOnboarding` dispatches `onboardingCompleted`, then
`updateLastOnboardingScreen(screen)`, then
`updateStatsigAndNavigate(screen)`; the other calls pass straight
through. -/
def realizeNavCall : NavCall → List DriverEvent
  | .navigate screen params => [.navigate screen params]
  | .popToScreen screen => [.popToScreen screen]
  | .navigateClearingStack screen params => [.navigateClearingStack screen params]
  | .dispatch action => [.dispatch action]
  | .finishOnboarding screen =>
    [.dispatch .onboardingCompleted,
      .dispatch (.updateLastOnboardingScreen screen),
      .dispatch (.updateStatsigAndNavigate screen)]

/-- `goToNextOnboardingScreen`: run the decision table once with the real
navigator; the resulting event trace (or the decision table's error). -/
def goToNextOnboardingScreen (firstScreenInCurrentStep : Screens)
    (onboardingProps : OnboardingProps) : Except String (List DriverEvent) :=
  (_getStepInfo firstScreenInCurrentStep onboardingProps).map
    (fun calls => calls.flatMap realizeNavCall)

/-- The screens the decision table has a case for. -/
def handledScreens : List Screens :=
  [.PincodeSet, .EnableBiometry, .ImportSelect, .SignInWithEmail,
    .ImportWallet, .LinkPhoneNumber, .VerificationStartScreen, .ProtectWallet]

instance {e a : Type} [DecidableEq e] [DecidableEq a] : DecidableEq (Except e a) :=
  fun x y =>
  match x, y with
  | .ok v, .ok w =>
    if h : v = w then .isTrue (by rw [h]) else .isFalse (fun hh => h (by injection hh))
  | .error v, .error w =>
    if h : v = w then .isTrue (by rw [h]) else .isFalse (fun hh => h (by injection hh))
  | .ok _, .error _ => .isFalse (fun hh => Except.noConfusion hh)
  | .error _, .ok _ => .isFalse (fun hh => Except.noConfusion hh)

/-- Property formalization: selects the calls that are not `popToScreen`
calls (for comparing the `EnableBiometry` transition with the
`PincodeSet` one). -/
def isNotPopToScreen : NavCall → Bool
  | .popToScreen _ => false
  | _ => true

/-- Property formalization: every (non-terminal) `navigate` or
`navigateClearingStack` event is immediately followed by a dispatch of
`updateLastOnboardingScreen` with the same destination screen. -/
def navFollowedByPersist : List DriverEvent → Bool
  | [] => true
  | .navigate screen _ :: rest =>
    (if END_OF_ONBOARDING_SCREENS.contains screen then true
     else
       match rest with
       | .dispatch (.updateLastOnboardingScreen s2) :: _ => screen == s2
       | _ => false) &&
      navFollowedByPersist rest
  | .navigateClearingStack screen _ :: rest =>
    (if END_OF_ONBOARDING_SCREENS.contains screen then true
     else
       match rest with
       | .dispatch (.updateLastOnboardingScreen s2) :: _ => screen == s2
       | _ => false) &&
      navFollowedByPersist rest
  | _ :: rest => navFollowedByPersist rest

/-- Property formalization: whenever `onboardingCompleted` is dispatched,
it is followed by exactly an `updateLastOnboardingScreen` and an
`updateStatsigAndNavigate` dispatch for one and the same screen, and
nothing else comes after (finishing is the last thing a transition
does). -/
def finishEffectsWellFormed : List DriverEvent → Bool
  | [] => true
  | .dispatch .onboardingCompleted :: rest =>
    (match rest with
     | [.dispatch (.updateLastOnboardingScreen a), .dispatch (.updateStatsigAndNavigate b)] =>
       a == b
     | _ => false)
  | _ :: rest => finishEffectsWellFormed rest

/-- The three dispatches the real navigator performs on
`finishOnboarding(screen)`, in order. -/
def finishEffects (screen : Screens) : List DriverEvent :=
  [.dispatch .onboardingCompleted, .dispatch (.updateLastOnboardingScreen screen),
    .dispatch (.updateStatsigAndNavigate screen)]

/-- Property formalization for the navigation driver: the driver trace
pairs every non-terminal advance with its persist dispatch, its finish
effects are well formed, and whenever the decision table finishes with
screen `f`, the driver trace ends with exactly the three finish effects
for `f`. -/
def driverEffectsOk (s : Screens) (props : OnboardingProps) : Bool :=
  navFollowedByPersist ((goToNextOnboardingScreen s props).toOption.getD []) &&
  finishEffectsWellFormed ((goToNextOnboardingScreen s props).toOption.getD []) &&
  ((_getStepInfo s props).toOption.getD []).all fun c =>
    match c with
    | .finishOnboarding f =>
      (finishEffects f).isSuffixOf ((goToNextOnboardingScreen s props).toOption.getD [])
    | _ => true

/-- Property formalization: the call does not navigate to `target`. -/
def doesNotNavigateTo (target : Screens) : NavCall → Bool
  | .navigate screen _ => !(screen == target)
  | .navigateClearingStack screen _ => !(screen == target)
  | _ => true

/-! Helper lemmas about the simulation state. -/

theorem nextStepAndCount_currentScreen (target : Screens) (st : SimState) (s : Screens) :
    (nextStepAndCount target st s).currentScreen = s := by
  unfold nextStepAndCount
  split <;> rfl

theorem simApplyCall_currentScreen (target : Screens) (st : SimState) (c : NavCall) :
    (simApplyCall target st c).currentScreen = applyCallToScreen st.currentScreen c := by
  cases c <;> simp [simApplyCall, applyCallToScreen, nextStepAndCount_currentScreen]

theorem foldl_simApplyCall_currentScreen (target : Screens) (calls : List NavCall) :
    ∀ st : SimState, (calls.foldl (simApplyCall target) st).currentScreen =
      calls.foldl applyCallToScreen st.currentScreen := by
  induction calls with
  | nil => intro st; rfl
  | cons c rest ih =>
    intro st
    rw [List.foldl_cons, List.foldl_cons, ih, simApplyCall_currentScreen]

theorem nextStepAndCount_le (target : Screens) (st : SimState) (s : Screens)
    (h : st.stepCounter ≤ st.totalCounter) :
    (nextStepAndCount target st s).stepCounter ≤ (nextStepAndCount target st s).totalCounter := by
  unfold nextStepAndCount
  split
  · exact h
  · dsimp only
    split <;> omega

theorem simApplyCall_le (target : Screens) (st : SimState) (c : NavCall)
    (h : st.stepCounter ≤ st.totalCounter) :
    (simApplyCall target st c).stepCounter ≤ (simApplyCall target st c).totalCounter := by
  cases c <;> simp only [simApplyCall] <;>
    first
    | exact nextStepAndCount_le _ _ _ h
    | exact h

theorem foldl_simApplyCall_le (target : Screens) (calls : List NavCall) :
    ∀ st : SimState, st.stepCounter ≤ st.totalCounter →
      (calls.foldl (simApplyCall target) st).stepCounter ≤
        (calls.foldl (simApplyCall target) st).totalCounter := by
  induction calls with
  | nil => intro st h; exact h
  | cons c rest ih =>
    intro st h
    exact ih _ (simApplyCall_le target st c h)

theorem simLoop_le (target : Screens) (props : OnboardingProps) :
    ∀ (fuel : Nat) (st st' : SimState), simLoop target props fuel st = some st' →
      st.stepCounter ≤ st.totalCounter → st'.stepCounter ≤ st'.totalCounter := by
  intro fuel
  induction fuel with
  | zero =>
    intro st st' heq h
    unfold simLoop at heq
    split at heq
    · injection heq with heq; rw [← heq]; exact h
    · exact Option.noConfusion heq
  | succ n ih =>
    intro st st' heq h
    unfold simLoop at heq
    split at heq
    · injection heq with heq; rw [← heq]; exact h
    · split at heq
      · exact Option.noConfusion heq
      · exact ih _ _ heq (foldl_simApplyCall_le target _ st h)

/-! Helper lemmas: every run of the decision table reaches an
end-of-onboarding screen within the path-length bound of its start
screen. -/

theorem run_end_screen (props : OnboardingProps) (s : Screens)
    (h : END_OF_ONBOARDING_SCREENS.contains s = true) :
    ∀ n, runDecisionTableN props n s = s := by
  intro n
  cases n with
  | zero => rfl
  | succ m => unfold runDecisionTableN; rw [if_pos h]

theorem runN_succ_step (props : OnboardingProps) (n : Nat) (s t : Screens)
    (hend : END_OF_ONBOARDING_SCREENS.contains s = false)
    (hnext : nextScreenAfter props s = .ok t) :
    runDecisionTableN props (n + 1) s = runDecisionTableN props n t := by
  conv_lhs => rw [runDecisionTableN]
  rw [if_neg (by simpa using hend), hnext]

theorem contains_runN_of_next (props : OnboardingProps) (n : Nat) (s t : Screens)
    (hend : END_OF_ONBOARDING_SCREENS.contains s = false)
    (hnext : nextScreenAfter props s = .ok t)
    (ht : END_OF_ONBOARDING_SCREENS.contains (runDecisionTableN props n t) = true) :
    END_OF_ONBOARDING_SCREENS.contains (runDecisionTableN props (n + 1) s) = true := by
  rw [runN_succ_step props n s t hend hnext]
  exact ht

theorem run_CYA (props : OnboardingProps) (n : Nat) :
    END_OF_ONBOARDING_SCREENS.contains
      (runDecisionTableN props n .ChooseYourAdventure) = true := by
  rw [run_end_screen props .ChooseYourAdventure rfl n]
  rfl

theorem run_LinkPhoneNumber (props : OnboardingProps) (n : Nat) :
    END_OF_ONBOARDING_SCREENS.contains
      (runDecisionTableN props (n + 1) .LinkPhoneNumber) = true :=
  contains_runN_of_next props n _ .ChooseYourAdventure rfl rfl (run_CYA props n)

theorem run_VerificationStart (props : OnboardingProps) (n : Nat) :
    END_OF_ONBOARDING_SCREENS.contains
      (runDecisionTableN props (n + 1) .VerificationStartScreen) = true :=
  contains_runN_of_next props n _ .ChooseYourAdventure rfl rfl (run_CYA props n)

theorem run_ProtectWallet (props : OnboardingProps) (n : Nat) :
    END_OF_ONBOARDING_SCREENS.contains
      (runDecisionTableN props (n + 2) .ProtectWallet) = true := by
  cases hsv : props.skipVerification with
  | true =>
    exact contains_runN_of_next props (n + 1) _ .ChooseYourAdventure rfl
      (by simp [nextScreenAfter, _getStepInfo, hsv, Except.map, List.foldl,
        applyCallToScreen]) (run_CYA props (n + 1))
  | false =>
    exact contains_runN_of_next props (n + 1) _ .VerificationStartScreen rfl
      (by simp [nextScreenAfter, _getStepInfo, hsv, wrapNavigate, applyCallToScreen,
        Except.map, List.foldl]) (run_VerificationStart props n)

theorem run_ImportSelect (props : OnboardingProps) (n : Nat) :
    END_OF_ONBOARDING_SCREENS.contains
      (runDecisionTableN props (n + 2) .ImportSelect) = true := by
  cases hv : props.skipVerification || props.numberAlreadyVerifiedCentrally with
  | true =>
    exact contains_runN_of_next props (n + 1) _ .ChooseYourAdventure rfl
      (by simp [nextScreenAfter, _getStepInfo, hv, Except.map, List.foldl,
        applyCallToScreen]) (run_CYA props (n + 1))
  | false =>
    exact contains_runN_of_next props (n + 1) _ .LinkPhoneNumber rfl
      (by simp [nextScreenAfter, _getStepInfo, hv, wrapNavigate, applyCallToScreen,
        Except.map, List.foldl]) (run_LinkPhoneNumber props n)

theorem run_SignInWithEmail (props : OnboardingProps) (n : Nat) :
    END_OF_ONBOARDING_SCREENS.contains
      (runDecisionTableN props (n + 2) .SignInWithEmail) = true := by
  cases hv : props.skipVerification || props.numberAlreadyVerifiedCentrally with
  | true =>
    exact contains_runN_of_next props (n + 1) _ .ChooseYourAdventure rfl
      (by simp [nextScreenAfter, _getStepInfo, hv, Except.map, List.foldl,
        applyCallToScreen]) (run_CYA props (n + 1))
  | false =>
    exact contains_runN_of_next props (n + 1) _ .VerificationStartScreen rfl
      (by simp [nextScreenAfter, _getStepInfo, hv, wrapNavigate, applyCallToScreen,
        Except.map, List.foldl]) (run_VerificationStart props n)

theorem run_ImportWallet (props : OnboardingProps) (n : Nat) :
    END_OF_ONBOARDING_SCREENS.contains
      (runDecisionTableN props (n + 2) .ImportWallet) = true := by
  cases hv : props.skipVerification || props.numberAlreadyVerifiedCentrally with
  | true =>
    exact contains_runN_of_next props (n + 1) _ .ChooseYourAdventure rfl
      (by simp [nextScreenAfter, _getStepInfo, hv, Except.map, List.foldl,
        applyCallToScreen]) (run_CYA props (n + 1))
  | false =>
    exact contains_runN_of_next props (n + 1) _ .VerificationStartScreen rfl
      (by simp [nextScreenAfter, _getStepInfo, hv, wrapNavigate, applyCallToScreen,
        Except.map, List.foldl]) (run_VerificationStart props n)

theorem run_EnableBiometry (props : OnboardingProps) (n : Nat) :
    END_OF_ONBOARDING_SCREENS.contains
      (runDecisionTableN props (n + 3) .EnableBiometry) = true := by
  cases hcra : truthy props.choseToRestoreAccount with
  | true =>
    cases hcbr : props.showCloudAccountBackupRestore with
    | true =>
      exact contains_runN_of_next props (n + 2) _ .ImportSelect rfl
        (by simp [nextScreenAfter, _getStepInfo, hcra, hcbr, navigateImportOrImportSelect,
          wrapNavigate, Except.map, List.foldl, applyCallToScreen])
        (run_ImportSelect props n)
    | false =>
      exact contains_runN_of_next props (n + 2) _ .ImportWallet rfl
        (by simp [nextScreenAfter, _getStepInfo, hcra, hcbr, navigateImportOrImportSelect,
          wrapNavigate, Except.map, List.foldl, applyCallToScreen])
        (run_ImportWallet props n)
  | false =>
    cases hcbs : props.showCloudAccountBackupSetup with
    | true =>
      exact contains_runN_of_next props (n + 2) _ .SignInWithEmail rfl
        (by simp [nextScreenAfter, _getStepInfo, hcra, hcbs, wrapNavigate, Except.map,
          List.foldl, applyCallToScreen])
        (run_SignInWithEmail props n)
    | false =>
      cases hspw : props.skipProtectWallet with
      | true =>
        exact contains_runN_of_next props (n + 2) _ .ChooseYourAdventure rfl
          (by simp [nextScreenAfter, _getStepInfo, hcra, hcbs, hspw, Except.map,
            List.foldl, applyCallToScreen])
          (run_CYA props (n + 2))
      | false =>
        exact contains_runN_of_next props (n + 2) _ .ProtectWallet rfl
          (by simp [nextScreenAfter, _getStepInfo, hcra, hcbs, hspw, wrapNavigate,
            Except.map, List.foldl, applyCallToScreen])
          (run_ProtectWallet props n)

theorem run_PincodeSet (props : OnboardingProps) (n : Nat) :
    END_OF_ONBOARDING_SCREENS.contains
      (runDecisionTableN props (n + 4) .PincodeSet) = true := by
  cases hbio : props.supportedBiometryType.isSome with
  | true =>
    exact contains_runN_of_next props (n + 3) _ .EnableBiometry rfl
      (by simp [nextScreenAfter, _getStepInfo, hbio, wrapNavigate, Except.map,
        List.foldl, applyCallToScreen])
      (run_EnableBiometry props n)
  | false =>
    cases hcra : truthy props.choseToRestoreAccount with
    | true =>
      cases hcbr : props.showCloudAccountBackupRestore with
      | true =>
        exact contains_runN_of_next props (n + 3) _ .ImportSelect rfl
          (by simp [nextScreenAfter, _getStepInfo, hbio, hcra, hcbr,
            navigateImportOrImportSelect, wrapNavigate, Except.map, List.foldl,
            applyCallToScreen])
          (run_ImportSelect props (n + 1))
      | false =>
        exact contains_runN_of_next props (n + 3) _ .ImportWallet rfl
          (by simp [nextScreenAfter, _getStepInfo, hbio, hcra, hcbr,
            navigateImportOrImportSelect, wrapNavigate, Except.map, List.foldl,
            applyCallToScreen])
          (run_ImportWallet props (n + 1))
    | false =>
      cases hcbs : props.showCloudAccountBackupSetup with
      | true =>
        exact contains_runN_of_next props (n + 3) _ .SignInWithEmail rfl
          (by simp [nextScreenAfter, _getStepInfo, hbio, hcra, hcbs, wrapNavigate,
            Except.map, List.foldl, applyCallToScreen])
          (run_SignInWithEmail props (n + 1))
      | false =>
        cases hspw : props.skipProtectWallet with
        | true =>
          exact contains_runN_of_next props (n + 3) _ .ChooseYourAdventure rfl
            (by simp [nextScreenAfter, _getStepInfo, hbio, hcra, hcbs, hspw,
              Except.map, List.foldl, applyCallToScreen])
            (run_CYA props (n + 3))
        | false =>
          exact contains_runN_of_next props (n + 3) _ .ProtectWallet rfl
            (by simp [nextScreenAfter, _getStepInfo, hbio, hcra, hcbs, hspw,
              wrapNavigate, Except.map, List.foldl, applyCallToScreen])
            (run_ProtectWallet props (n + 1))

theorem run_firstScreen (cfg : FeaturesEnabledConfig) (props : OnboardingProps) :
    END_OF_ONBOARDING_SCREENS.contains
      (runDecisionTableN props 6
        (firstOnboardingScreen cfg props.recoveringFromStoreWipe)) = true := by
  unfold firstOnboardingScreen
  cases hw : props.recoveringFromStoreWipe with
  | true =>
    rw [if_pos rfl]
    cases hcb : cfg.get .CloudBackup with
    | true => rw [if_pos rfl]; exact run_ImportSelect props 4
    | false => rw [if_neg (by simp)]; exact run_ImportWallet props 4
  | false =>
    rw [if_neg (by simp)]
    exact run_PincodeSet props 2

theorem simLoop_isSome_of_run (target : Screens) (props : OnboardingProps) :
    ∀ (fuel : Nat) (st : SimState),
      END_OF_ONBOARDING_SCREENS.contains
        (runDecisionTableN props fuel st.currentScreen) = true →
      (simLoop target props fuel st).isSome = true := by
  intro fuel
  induction fuel with
  | zero =>
    intro st h
    unfold simLoop
    rw [if_pos (show END_OF_ONBOARDING_SCREENS.contains st.currentScreen = true from h)]
    rfl
  | succ n ih =>
    intro st h
    unfold simLoop
    cases hc : END_OF_ONBOARDING_SCREENS.contains st.currentScreen with
    | true => rw [if_pos rfl]; rfl
    | false =>
      rw [if_neg (by simp)]
      cases hstep : _getStepInfo st.currentScreen props with
      | error e =>
        have hne : nextScreenAfter props st.currentScreen = .error e := by
          simp [nextScreenAfter, hstep, Except.map]
        unfold runDecisionTableN at h
        simp [hc, hne] at h
        exact absurd h (by simpa using hc)
      | ok calls =>
        have hnext : nextScreenAfter props st.currentScreen =
            Except.ok (calls.foldl applyCallToScreen st.currentScreen) := by
          simp [nextScreenAfter, hstep, Except.map]
        rw [runN_succ_step props n _ _ hc hnext] at h
        exact ih (calls.foldl (simApplyCall target) st)
          (by rw [foldl_simApplyCall_currentScreen]; exact h)

theorem getOnboardingStepValues_isSome (cfg : FeaturesEnabledConfig) (s : Screens)
    (props : OnboardingProps) : (getOnboardingStepValues cfg s props).isSome = true := by
  unfold getOnboardingStepValues
  have h := simLoop_isSome_of_run s props 6
    { stepCounter := 1, totalCounter := 1, reachedStep := false,
      currentScreen := firstOnboardingScreen cfg props.recoveringFromStoreWipe }
    (run_firstScreen cfg props)
  cases hsim : simLoop s props 6
      { stepCounter := 1, totalCounter := 1, reachedStep := false,
        currentScreen := firstOnboardingScreen cfg props.recoveringFromStoreWipe } with
  | some st => rfl
  | none => rw [hsim] at h; exact Bool.noConfusion h

/-! Helper lemmas: as long as the current screen never equals the
target, one transition advances the step counter in lockstep with the
total counter and never marks the target reached. -/

theorem foldl_preserves_eq (target : Screens) (props : OnboardingProps) (scr : Screens)
    (calls : List NavCall) (hok : _getStepInfo scr props = .ok calls) (st : SimState)
    (hcur : st.currentScreen = scr) (hne : scr ≠ target)
    (hr : st.reachedStep = false) (hs : st.stepCounter = st.totalCounter) :
    (calls.foldl (simApplyCall target) st).reachedStep = false ∧
    (calls.foldl (simApplyCall target) st).stepCounter =
      (calls.foldl (simApplyCall target) st).totalCounter := by
  have hb : (st.currentScreen == target) = false := by
    rw [hcur]
    exact beq_eq_false_iff_ne.mpr hne
  cases scr with
  | PincodeSet =>
    simp only [_getStepInfo] at hok
    injection hok with hok
    subst hok
    simp only [navigateImportOrImportSelect, wrapNavigate]
    split_ifs <;>
      simp [List.foldl, simApplyCall, nextStepAndCount, END_OF_ONBOARDING_SCREENS,
        hb, hr, hs]
  | EnableBiometry =>
    simp only [_getStepInfo] at hok
    injection hok with hok
    subst hok
    simp only [navigateImportOrImportSelect, wrapNavigate]
    split_ifs <;>
      simp [List.foldl, simApplyCall, nextStepAndCount, END_OF_ONBOARDING_SCREENS,
        hb, hr, hs]
  | ImportSelect =>
    simp only [_getStepInfo] at hok
    injection hok with hok
    subst hok
    simp only [navigateImportOrImportSelect, wrapNavigate]
    split_ifs <;>
      simp [List.foldl, simApplyCall, nextStepAndCount, END_OF_ONBOARDING_SCREENS,
        hb, hr, hs]
  | SignInWithEmail =>
    simp only [_getStepInfo] at hok
    injection hok with hok
    subst hok
    simp only [navigateImportOrImportSelect, wrapNavigate]
    split_ifs <;>
      simp [List.foldl, simApplyCall, nextStepAndCount, END_OF_ONBOARDING_SCREENS,
        hb, hr, hs]
  | ImportWallet =>
    simp only [_getStepInfo] at hok
    injection hok with hok
    subst hok
    simp only [navigateImportOrImportSelect, wrapNavigate]
    split_ifs <;>
      simp [List.foldl, simApplyCall, nextStepAndCount, END_OF_ONBOARDING_SCREENS,
        hb, hr, hs]
  | LinkPhoneNumber =>
    simp only [_getStepInfo] at hok
    injection hok with hok
    subst hok
    simp [List.foldl, simApplyCall, hr, hs]
  | VerificationStartScreen =>
    simp only [_getStepInfo] at hok
    injection hok with hok
    subst hok
    simp [List.foldl, simApplyCall, hr, hs]
  | ProtectWallet =>
    simp only [_getStepInfo] at hok
    injection hok with hok
    subst hok
    simp only [navigateImportOrImportSelect, wrapNavigate]
    split_ifs <;>
      simp [List.foldl, simApplyCall, nextStepAndCount, END_OF_ONBOARDING_SCREENS,
        hb, hr, hs]
  | Welcome => exact absurd hok (by simp [_getStepInfo])
  | TabHome => exact absurd hok (by simp [_getStepInfo])
  | ChooseYourAdventure => exact absurd hok (by simp [_getStepInfo])

theorem onboardingPath_succ_step (props : OnboardingProps) (n : Nat) (s t : Screens)
    (hend : END_OF_ONBOARDING_SCREENS.contains s = false)
    (hnext : nextScreenAfter props s = .ok t) :
    onboardingPath props (n + 1) s = s :: onboardingPath props n t := by
  conv_lhs => rw [onboardingPath]
  rw [if_neg (by simpa using hend), hnext]

theorem simLoop_stepEqTotal (target : Screens) (props : OnboardingProps) :
    ∀ (fuel : Nat) (st st' : SimState),
      simLoop target props fuel st = some st' →
      target ∉ onboardingPath props fuel st.currentScreen →
      st.reachedStep = false → st.stepCounter = st.totalCounter →
      st'.reachedStep = false ∧ st'.stepCounter = st'.totalCounter := by
  intro fuel
  induction fuel with
  | zero =>
    intro st st' heq hnp hr hs
    unfold simLoop at heq
    split at heq
    · injection heq with heq; rw [← heq]; exact ⟨hr, hs⟩
    · exact Option.noConfusion heq
  | succ n ih =>
    intro st st' heq hnp hr hs
    unfold simLoop at heq
    cases hc : END_OF_ONBOARDING_SCREENS.contains st.currentScreen with
    | true =>
      rw [if_pos hc] at heq
      injection heq with heq
      rw [← heq]
      exact ⟨hr, hs⟩
    | false =>
      rw [if_neg (by simpa using hc)] at heq
      cases hstep : _getStepInfo st.currentScreen props with
      | error e =>
        rw [hstep] at heq
        exact Option.noConfusion heq
      | ok calls =>
        rw [hstep] at heq
        have hnext : nextScreenAfter props st.currentScreen =
            Except.ok (calls.foldl applyCallToScreen st.currentScreen) := by
          simp [nextScreenAfter, hstep, Except.map]
        rw [onboardingPath_succ_step props n _ _ hc hnext] at hnp
        have hnp2 : target ∉
            onboardingPath props n (calls.foldl applyCallToScreen st.currentScreen) :=
          fun hmem => hnp (List.mem_cons_of_mem _ hmem)
        have hne1 : st.currentScreen ≠ target :=
          fun hh => hnp (hh ▸ List.mem_cons_self _ _)
        obtain ⟨hr', hs'⟩ := foldl_preserves_eq target props st.currentScreen calls
          hstep st rfl hne1 hr hs
        exact ih (calls.foldl (simApplyCall target) st) st' heq
          (by rw [foldl_simApplyCall_currentScreen]; exact hnp2) hr' hs'

/-! The claims. -/

/-- Claim C1: for the scenario-A snapshot (not recovering from a store
wipe, no biometry, restore choice unset, cloud setup off, protect-wallet
and verification not skipped, number not verified centrally — with the
cloud-restore flag arbitrary), the PincodeSet transition dispatches the
initialize-account action and advances to ProtectWallet (persisting it
as last onboarding screen), and `getOnboardingStepValues(ProtectWallet,
snapshot)` returns exactly step 2 of 3 for every feature config. -/
theorem claim_C1 : ∀ (cfg : FeaturesEnabledConfig) (cbr : Bool),
    _getStepInfo .PincodeSet
      (OnboardingProps.mk false none none false false cbr false false) =
      .ok [.dispatch .initializeAccount, .navigate .ProtectWallet none,
        .dispatch (.updateLastOnboardingScreen .ProtectWallet)] ∧
    getOnboardingStepValues cfg .ProtectWallet
      (OnboardingProps.mk false none none false false cbr false false) =
      some { step := 2, totalSteps := 3 } :=
  fun _ _ => ⟨rfl, rfl⟩

/-- Counterexample to claim C2 as stated: for a snapshot that chose to
restore (with the cloud-restore flag on), the EnableBiometry transition
does NOT produce the same calls as the PincodeSet transition with
biometry nulled — PincodeSet additionally pops to Welcome first, while
EnableBiometry never calls `popToScreen`. -/
theorem claim_C2_counterexample :
    _getStepInfo .EnableBiometry
      (OnboardingProps.mk false (some true) (some .FINGERPRINT) false false true false false) ≠
    _getStepInfo .PincodeSet
      { OnboardingProps.mk false (some true) (some .FINGERPRINT) false false true false false with
        supportedBiometryType := none } := by
  decide

/-- Claim C2 (amended): for every snapshot, the EnableBiometry transition
produces exactly the calls and side effects of the PincodeSet transition
for the same snapshot with `supportedBiometryType` set to none, except
that the pop-to-Welcome step of the restore branch is omitted (the
PincodeSet trace with its `popToScreen` calls filtered out). -/
theorem claim_C2 : ∀ props : OnboardingProps,
    _getStepInfo .EnableBiometry props =
      (_getStepInfo .PincodeSet { props with supportedBiometryType := none }).map
        (List.filter isNotPopToScreen) := by
  intro p
  obtain ⟨rwi, cra, bio, sv, nv, cbr, cbs, spw⟩ := p
  rcases cra with _ | b
  · cases cbs <;> cases spw <;> cases cbr <;> rfl
  · cases b <;> cases cbs <;> cases spw <;> cases cbr <;> rfl

/-- Claim C3: for every feature config and snapshot, iterating the step
decision table from `firstOnboardingScreen` reaches an end-of-onboarding
screen within at most 6 transitions (so the traversal is cycle-free on
its path), and consequently `getOnboardingStepValues` (whose loop is run
with fuel 6 here) returns normally for every target screen. -/
theorem claim_C3 : ∀ (cfg : FeaturesEnabledConfig) (props : OnboardingProps),
    END_OF_ONBOARDING_SCREENS.contains
      (runDecisionTableN props 6
        (firstOnboardingScreen cfg props.recoveringFromStoreWipe)) = true ∧
    ∀ s : Screens, (getOnboardingStepValues cfg s props).isSome = true :=
  fun cfg props =>
    ⟨run_firstScreen cfg props, fun s => getOnboardingStepValues_isSome cfg s props⟩

/-- Claim C4: whenever the simulation completes, the computed step is at
most the computed total number of steps, for every feature config,
target screen and snapshot. -/
theorem claim_C4 : ∀ (cfg : FeaturesEnabledConfig) (s : Screens) (props : OnboardingProps)
    (r : OnboardingStepValues), getOnboardingStepValues cfg s props = some r →
    r.step ≤ r.totalSteps := by
  intro cfg s props r heq
  unfold getOnboardingStepValues at heq
  split at heq
  · injection heq with heq
    rw [← heq]
    exact simLoop_le s props 6 _ _ (by assumption) (Nat.le_refl 1)
  · exact Option.noConfusion heq

theorem claim_C4_witness :
    getOnboardingStepValues (FeaturesEnabledConfig.mk false false true true true)
      .ProtectWallet (OnboardingProps.mk false none none false false false false false) =
      some { step := 2, totalSteps := 3 } ∧
    OnboardingStepValues.step { step := 2, totalSteps := 3 } ≤
      OnboardingStepValues.totalSteps { step := 2, totalSteps := 3 } :=
  ⟨rfl, claim_C4 (FeaturesEnabledConfig.mk false false true true true) .ProtectWallet
    (OnboardingProps.mk false none none false false false false false)
    { step := 2, totalSteps := 3 } rfl⟩

/-- Claim C5: the decision table returns a transition exactly for the
eight handled screens — for every snapshot — and for any other screen it
raises the fatal error whose message is "No step info found for ...";
that error is the only one the table can produce. -/
theorem claim_C5 : ∀ (s : Screens) (props : OnboardingProps),
    ((_getStepInfo s props).toOption.isSome = handledScreens.contains s) ∧
    (handledScreens.contains s = false →
      _getStepInfo s props = .error ("No step info found for " ++ s.name ++
        ". this step needs to be handled in _getStepInfo")) := by
  intro s props
  cases s <;>
    first
    | exact ⟨rfl, fun _ => rfl⟩
    | exact ⟨rfl, fun h => by simp [handledScreens] at h⟩

theorem claim_C5_witness :
    handledScreens.contains Screens.Welcome = false ∧
    _getStepInfo .Welcome (OnboardingProps.mk false none none false false false false false) =
      .error ("No step info found for " ++ Screens.name .Welcome ++
        ". this step needs to be handled in _getStepInfo") :=
  ⟨rfl, (claim_C5 .Welcome
    (OnboardingProps.mk false none none false false false false false)).2 rfl⟩

/-- Claim C6: in the real navigation driver's event trace, finishing
onboarding dispatches exactly `onboardingCompleted`, then
`updateLastOnboardingScreen(screen)`, then
`updateStatsigAndNavigate(screen)`, in this order and with nothing
after; and every non-terminal advance is immediately followed by an
`updateLastOnboardingScreen` dispatch with the destination screen. -/
theorem claim_C6 : ∀ (s : Screens) (props : OnboardingProps),
    driverEffectsOk s props = true := by
  intro s props
  obtain ⟨rwi, cra, bio, sv, nv, cbr, cbs, spw⟩ := props
  cases s <;> rcases bio with _ | t <;> rcases cra with _ | (_ | _) <;>
    cases sv <;> cases nv <;> cases cbr <;> cases cbs <;> cases spw <;> rfl

/-- Claim C7: for every snapshot, the transitions from LinkPhoneNumber
and from VerificationStartScreen produce exactly one call — finishing
onboarding with ChooseYourAdventure — so no navigation to any other
screen happens and the initialize-account action is not dispatched. -/
theorem claim_C7 : ∀ props : OnboardingProps,
    _getStepInfo .LinkPhoneNumber props = .ok [.finishOnboarding .ChooseYourAdventure] ∧
    _getStepInfo .VerificationStartScreen props =
      .ok [.finishOnboarding .ChooseYourAdventure] :=
  fun _ => ⟨rfl, rfl⟩

/-- Claim C8: every snapshot produced by `onboardingPropsSelector` has
`showCloudAccountBackupSetup` only when `showCloudAccountBackupRestore`
(the CloudBackup feature flag) is also set. -/
theorem claim_C8 : ∀ (cfg : FeaturesEnabledConfig) (rwi : Bool) (cra : Option Bool)
    (bio : Option BIOMETRY_TYPE) (nv : Bool),
    (onboardingPropsSelector cfg rwi cra bio nv).showCloudAccountBackupSetup = true →
    (onboardingPropsSelector cfg rwi cra bio nv).showCloudAccountBackupRestore = true := by
  intro cfg rwi cra bio nv h
  exact ((Bool.and_eq_true _ _) ▸ h).1

theorem claim_C8_witness :
    (onboardingPropsSelector (FeaturesEnabledConfig.mk true true true true true)
      false none none false).showCloudAccountBackupSetup = true ∧
    (onboardingPropsSelector (FeaturesEnabledConfig.mk true true true true true)
      false none none false).showCloudAccountBackupRestore = true :=
  ⟨rfl, claim_C8 (FeaturesEnabledConfig.mk true true true true true)
    false none none false rfl⟩

/-- Claim C9: when the EnableBiometry feature flag is disabled, every
snapshot produced by `onboardingPropsSelector` has
`supportedBiometryType` null; consequently no transition of the decision
table navigates to the EnableBiometry screen for such snapshots, and the
first onboarding screen is never EnableBiometry — so EnableBiometry is
unreachable. -/
theorem claim_C9 : ∀ (cfg : FeaturesEnabledConfig) (rwi : Bool) (cra : Option Bool)
    (bio : Option BIOMETRY_TYPE) (nv : Bool),
    cfg.get .EnableBiometry = false →
    (onboardingPropsSelector cfg rwi cra bio nv).supportedBiometryType = none ∧
    (∀ s : Screens,
      ((_getStepInfo s (onboardingPropsSelector cfg rwi cra bio nv)).toOption.getD []).all
        (doesNotNavigateTo .EnableBiometry) = true) ∧
    (∀ b : Bool, firstOnboardingScreen cfg b ≠ .EnableBiometry) := by
  intro cfg rwi cra bio nv h
  obtain ⟨cb, cbsi, pv, pw, eb⟩ := cfg
  have heb : eb = false := h
  subst heb
  refine ⟨rfl, fun s => ?_, fun b => ?_⟩
  · cases s <;> rcases cra with _ | (_ | _) <;> cases cb <;> cases cbsi <;>
      cases pv <;> cases pw <;> cases nv <;> rfl
  · cases b <;> cases cb <;> simp [firstOnboardingScreen, FeaturesEnabledConfig.get]

theorem claim_C9_witness :
    (FeaturesEnabledConfig.mk true true true true false).get .EnableBiometry = false ∧
    ((onboardingPropsSelector (FeaturesEnabledConfig.mk true true true true false)
      false (some true) (some .FACE_ID) false).supportedBiometryType = none ∧
    (∀ s : Screens,
      ((_getStepInfo s (onboardingPropsSelector
          (FeaturesEnabledConfig.mk true true true true false)
          false (some true) (some .FACE_ID) false)).toOption.getD []).all
        (doesNotNavigateTo .EnableBiometry) = true) ∧
    (∀ b : Bool, firstOnboardingScreen
      (FeaturesEnabledConfig.mk true true true true false) b ≠ .EnableBiometry)) :=
  ⟨rfl, claim_C9 (FeaturesEnabledConfig.mk true true true true false)
    false (some true) (some .FACE_ID) false rfl⟩

/-- Claim C10: for every feature config, snapshot and target screen that
never occurs on the simulated path from the first onboarding screen to
the terminal screen, `getOnboardingStepValues` still returns normally
and its result has step equal to totalSteps (the step counter is
incremented in lockstep with the total counter because the target is
never marked as reached). -/
theorem claim_C10 : ∀ (cfg : FeaturesEnabledConfig) (s : Screens) (props : OnboardingProps),
    s ∉ onboardingPath props 6 (firstOnboardingScreen cfg props.recoveringFromStoreWipe) →
    ∃ r : OnboardingStepValues, getOnboardingStepValues cfg s props = some r ∧
      r.step = r.totalSteps := by
  intro cfg s props hnp
  have hsome := getOnboardingStepValues_isSome cfg s props
  unfold getOnboardingStepValues at hsome ⊢
  cases hsim : simLoop s props 6
      { stepCounter := 1, totalCounter := 1, reachedStep := false,
        currentScreen := firstOnboardingScreen cfg props.recoveringFromStoreWipe } with
  | none => rw [hsim] at hsome; exact Bool.noConfusion hsome
  | some st =>
    refine ⟨{ step := st.stepCounter, totalSteps := st.totalCounter }, rfl, ?_⟩
    exact (simLoop_stepEqTotal s props 6 _ st hsim hnp rfl rfl).2

theorem claim_C10_witness :
    Screens.EnableBiometry ∉ onboardingPath
      (OnboardingProps.mk false none none false false false false false) 6
      (firstOnboardingScreen (FeaturesEnabledConfig.mk false false true true true)
        (OnboardingProps.mk false none none false false false false false).recoveringFromStoreWipe) ∧
    ∃ r : OnboardingStepValues,
      getOnboardingStepValues (FeaturesEnabledConfig.mk false false true true true)
        .EnableBiometry (OnboardingProps.mk false none none false false false false false) =
        some r ∧ r.step = r.totalSteps :=
  ⟨by decide, claim_C10 (FeaturesEnabledConfig.mk false false true true true)
    .EnableBiometry (OnboardingProps.mk false none none false false false false false)
    (by decide)⟩

end Onboarding
